import Mathlib

/-!
Shallow embedding of the container lifecycle orchestrator of `go-db`
(`src/databases/postgres/postgres.go`).  The external container engine and
the host network are modelled as an oracle (`Engine`); each operation is a
pure function that returns the sequence of engine interactions it performed
(the `Event` trace) together with its result, mirroring the Go control flow
statement by statement.
-/

namespace GoDB

/-- Engine interactions (subprocess invocations and local port binds) that an
operation can perform, in the order they happen. -/
inductive Event where
  | existsQuery (name : String)
  | bindProbe (port : Nat)
  | imagesQuery (image : String)
  | pull (image : String)
  | runCmd (args : List String)
  | probe (name : String)
  | stopCmd (name : String)
  deriving DecidableEq

/-- Oracle for the outside world: whether the docker binary resolves, what the
`docker ps -a --filter name=…` query returns (`none` models a failing
invocation, `some out` its stdout), which local ports accept a bind, the
`docker images -q` output for a version tag, and the success of pull, run,
readiness probes (indexed by attempt number) and stop. -/
structure Engine where
  dockerInstalled : Bool
  psOutput : String → Option String
  listenOk : Nat → Bool
  imagesOut : String → String
  pullOk : Bool
  runOk : Bool
  probeOk : Nat → Bool
  stopOk : Bool

/-- Configuration record, field for field the Go `Config` struct (the Go
`map[string]string` environment is a key/value list here). -/
structure Config where
  Version : String
  Port : String
  Password : String
  ContainerName : String
  Username : String
  Database : String
  Volume : String
  Memory : String
  CPU : String
  Replicas : Nat
  InitScripts : List String
  Environment : List (String × String)
  Networks : List String
  ExtraMounts : List String
  SSLMode : String
  SSLCert : String
  SSLKey : String
  SSLRootCert : String
  Timezone : String
  Locale : String
  deriving DecidableEq

def defaultPostgresVersion : String := "15"

def defaultPort : String := "5432"

/-- ASCII whitespace test matching the characters `strings.TrimSpace` strips
from docker status lines. -/
def isSpaceChar (c : Char) : Bool :=
  c == ' ' || c == '\t' || c == '\n' || c == '\r'

/-- Translation of `strings.TrimSpace`: drop leading and trailing whitespace. -/
def trimSpace (s : String) : String :=
  ⟨((s.data.dropWhile isSpaceChar).reverse.dropWhile isSpaceChar).reverse⟩

/-- Translation of `strings.HasPrefix` on the underlying character lists. -/
def hasPrefixChars : List Char → List Char → Bool
  | [], _ => true
  | _ :: _, [] => false
  | p :: ps, c :: cs => p == c && hasPrefixChars ps cs

/-- Model of `containerExists`: on a failing `docker ps` invocation it returns
`(false, false)`; otherwise the container exists when the trimmed status output
is non-empty, and is running when that status starts with `"Up"`. -/
def containerExists (eng : Engine) (name : String) : Bool × Bool :=
  match eng.psOutput name with
  | none => (false, false)
  | some out =>
    let status := trimSpace out
    if status = "" then (false, false)
    else (true, hasPrefixChars "Up".data status.data)

/-- Loop body of `findAvailablePort`: try to bind the ports
`port, port+1, …` while fuel lasts, recording one `bindProbe` event per
attempt, and return the first port that binds. -/
def findAvailablePortAux (eng : Engine) : Nat → Nat → List Event × Option Nat
  | _, 0 => ([], none)
  | port, Nat.succ fuel =>
    if eng.listenOk port then ([Event.bindProbe port], some port)
    else
      let rest := findAvailablePortAux eng (port + 1) fuel
      (Event.bindProbe port :: rest.fst, rest.snd)

/-- Model of `findAvailablePort`: scan the 100 ports
`startPort … startPort+99` and return the first that accepts a bind, `none`
when the whole window is occupied. -/
def findAvailablePort (eng : Engine) (startPort : Nat) : List Event × Option Nat :=
  findAvailablePortAux eng startPort 100

/-- Container-side file name an init script at list index `i` is mounted as,
from the format string `init_%d.sql` in `buildDockerArgs`. -/
def initMountName (i : Nat) : String :=
  "init_" ++ toString i ++ ".sql"

/-- Full `-v` argument for the init script at index `i`, from
`%s:/docker-entrypoint-initdb.d/init_%d.sql:ro`. -/
def initMountArg (script : String) (i : Nat) : String :=
  script ++ ":/docker-entrypoint-initdb.d/" ++ initMountName i ++ ":ro"

/-- Arguments contributed by the init-script loop of `buildDockerArgs` (the
Go `if len > 0` guard is redundant since the loop body runs zero times on an
empty list). -/
def initMountArgs (scripts : List String) : List String :=
  scripts.enum.flatMap (fun p => ["-v", initMountArg p.snd p.fst])

/-- Arguments contributed by the SSL block of `buildDockerArgs`: certificate
and key mounts only when SSL mode is not `"disable"` and both paths are
non-empty, plus the root-certificate mount when its path is non-empty too. -/
def sslMountArgs (cfg : Config) : List String :=
  if cfg.SSLMode ≠ "disable" then
    if cfg.SSLCert ≠ "" ∧ cfg.SSLKey ≠ "" then
      ["-v", cfg.SSLCert ++ ":/var/lib/postgresql/server.crt",
       "-v", cfg.SSLKey ++ ":/var/lib/postgresql/server.key"]
      ++ (if cfg.SSLRootCert ≠ "" then
            ["-v", cfg.SSLRootCert ++ ":/var/lib/postgresql/root.crt"]
          else [])
    else []
  else []

/-- Model of `buildDockerArgs`, assembling the `docker run` argument list in
the order the Go code appends it. -/
def buildDockerArgs (cfg : Config) : List String :=
  ["run", "--name", cfg.ContainerName,
   "-e", "POSTGRES_PASSWORD=" ++ cfg.Password,
   "-e", "POSTGRES_USER=" ++ cfg.Username,
   "-e", "POSTGRES_DB=" ++ cfg.Database,
   "-e", "TZ=" ++ cfg.Timezone,
   "-e", "LANG=" ++ cfg.Locale,
   "-p", cfg.Port ++ ":5432",
   "-d"]
  ++ cfg.Environment.flatMap (fun kv => ["-e", kv.fst ++ "=" ++ kv.snd])
  ++ (if cfg.Volume ≠ "" then ["-v", cfg.Volume ++ ":/var/lib/postgresql/data"] else [])
  ++ (if cfg.Memory ≠ "" then ["--memory", cfg.Memory] else [])
  ++ (if cfg.CPU ≠ "" then ["--cpus", cfg.CPU] else [])
  ++ cfg.Networks.flatMap (fun n => ["--network", n])
  ++ cfg.ExtraMounts.flatMap (fun m => ["-v", m])
  ++ sslMountArgs cfg
  ++ initMountArgs cfg.InitScripts
  ++ ["postgres:" ++ cfg.Version]

/-- Readiness-polling failure. -/
inductive WaitErr where
  | readinessTimeout
  deriving DecidableEq

/-- Loop body of `waitForPostgres`: run `docker exec … pg_isready` once per
remaining attempt (`attempt` counts the probes already made), returning on the
first success. -/
def waitForPostgresAux (eng : Engine) (name : String) :
    Nat → Nat → List Event × Except WaitErr Unit
  | _, 0 => ([], Except.error WaitErr.readinessTimeout)
  | attempt, Nat.succ fuel =>
    if eng.probeOk attempt then ([Event.probe name], Except.ok ())
    else
      let rest := waitForPostgresAux eng name (attempt + 1) fuel
      (Event.probe name :: rest.fst, rest.snd)

/-- Model of `waitForPostgres`: at most `maxAttempts = 10` probes, success on
the first zero exit, timeout error after the budget is exhausted. -/
def waitForPostgres (eng : Engine) (name : String) : List Event × Except WaitErr Unit :=
  waitForPostgresAux eng name 0 10

/-- Errors of `CreateWithConfig` (the Go code returns formatted strings; each
distinct return site gets one constructor, with `stepFailed` carrying the step
name of the `failed during %s` wrapper). -/
inductive CreateErr where
  | emptyName
  | dockerNotInstalled
  | alreadyExists (name : String)
  | noAvailablePort
  | stepFailed (step : String)
  deriving DecidableEq

/-- Result of a create call: the engine-interaction trace, the returned error
or success, and the configuration record as it stands after the call (the Go
code mutates `cfg` through a pointer). -/
structure Outcome where
  trace : List Event
  res : Except CreateErr Unit
  cfg : Config

/-- Step 1 of the step table, `Pulling PostgreSQL image`: query
`docker images -q postgres:<version>` (its error is discarded in the Go code)
and pull only when the output is empty; the step succeeds without pulling
otherwise. -/
def pullStep (eng : Engine) (cfg : Config) : List Event × Bool :=
  if eng.imagesOut cfg.Version = "" then
    ([Event.imagesQuery ("postgres:" ++ cfg.Version),
      Event.pull ("postgres:" ++ cfg.Version)], eng.pullOk)
  else
    ([Event.imagesQuery ("postgres:" ++ cfg.Version)], true)

/-- The three-step table of `CreateWithConfig` (pull, `docker run`, readiness
wait), executed in order with the first failure aborting the rest, each
failure wrapped as `failed during <step name>`. -/
def runSteps (eng : Engine) (cfg : Config) : List Event × Except CreateErr Unit :=
  let p := pullStep eng cfg
  if p.snd = false then
    (p.fst, Except.error (CreateErr.stepFailed "Pulling PostgreSQL image"))
  else
    let runEv := Event.runCmd (buildDockerArgs cfg)
    if eng.runOk = false then
      (p.fst ++ [runEv], Except.error (CreateErr.stepFailed "Creating container"))
    else
      let w := waitForPostgres eng cfg.ContainerName
      match w.snd with
      | Except.ok _ => (p.fst ++ runEv :: w.fst, Except.ok ())
      | Except.error _ =>
        (p.fst ++ runEv :: w.fst,
         Except.error (CreateErr.stepFailed "Waiting for container to be ready"))

/-- Model of `CreateWithConfig`: validate the name, check the docker binary,
query existence, reassign the port when the configured one is the default,
then run the step table.  The Go nil-config guard has no counterpart since
`Config` is a value here. -/
def createWithConfig (eng : Engine) (cfg : Config) : Outcome :=
  if cfg.ContainerName = "" then ⟨[], Except.error CreateErr.emptyName, cfg⟩
  else if eng.dockerInstalled = false then
    ⟨[], Except.error CreateErr.dockerNotInstalled, cfg⟩
  else if (containerExists eng cfg.ContainerName).fst = true then
    ⟨[Event.existsQuery cfg.ContainerName],
     Except.error (CreateErr.alreadyExists cfg.ContainerName), cfg⟩
  else if cfg.Port = defaultPort then
    match (findAvailablePort eng 5432).snd with
    | none =>
      ⟨Event.existsQuery cfg.ContainerName :: (findAvailablePort eng 5432).fst,
       Except.error CreateErr.noAvailablePort, cfg⟩
    | some p =>
      let cfg2 : Config := { cfg with Port := toString p }
      let s := runSteps eng cfg2
      ⟨Event.existsQuery cfg.ContainerName :: ((findAvailablePort eng 5432).fst ++ s.fst),
       s.snd, cfg2⟩
  else
    let s := runSteps eng cfg
    ⟨Event.existsQuery cfg.ContainerName :: s.fst, s.snd, cfg⟩

/-- Model of `DefaultConfig`; the wall-clock timestamp used for the generated
name and the generated password are oracle parameters `now` and `pw`. -/
def defaultConfig (now pw : String) (name : String) : Config :=
  let n := if name = "" then "postgres-" ++ now else name
  { Version := defaultPostgresVersion
    Port := defaultPort
    Password := pw
    ContainerName := n
    Username := "postgres"
    Database := n
    Volume := ""
    Memory := ""
    CPU := ""
    Replicas := 0
    InitScripts := []
    Environment := []
    Networks := []
    ExtraMounts := []
    SSLMode := "disable"
    SSLCert := ""
    SSLKey := ""
    SSLRootCert := ""
    Timezone := "UTC"
    Locale := "en_US.utf8" }

/-- Model of `Create`: the default-config entry point. -/
def create (eng : Engine) (now pw : String) (name : String) : Outcome :=
  createWithConfig eng (defaultConfig now pw name)

/-- Errors of `Stop`. -/
inductive StopErr where
  | notFound (name : String)
  | alreadyStopped (name : String)
  | stopFailed
  deriving DecidableEq

/-- Model of `Stop`: one existence/status query, then `NotFound` when absent,
`AlreadyStopped` when present but not running, otherwise a single
`docker stop` whose nonzero exit is wrapped as an error. -/
def stop (eng : Engine) (name : String) : List Event × Except StopErr Unit :=
  let ex := containerExists eng name
  if ex.fst = false then
    ([Event.existsQuery name], Except.error (StopErr.notFound name))
  else if ex.snd = false then
    ([Event.existsQuery name], Except.error (StopErr.alreadyStopped name))
  else if eng.stopOk then
    ([Event.existsQuery name, Event.stopCmd name], Except.ok ())
  else
    ([Event.existsQuery name, Event.stopCmd name], Except.error StopErr.stopFailed)

/-- Boolean test for a `runCmd` event. -/
def isRunCmd : Event → Bool
  | Event.runCmd _ => true
  | _ => false

/-- Boolean test for a `bindProbe` event. -/
def isBindProbe : Event → Bool
  | Event.bindProbe _ => true
  | _ => false

/-- Boolean test for a `stopCmd` event. -/
def isStopCmd : Event → Bool
  | Event.stopCmd _ => true
  | _ => false

/-- Kernel-reducible lexicographic (alphabetical, byte-wise) order on
character lists, used to state engine-side alphabetical file ordering. -/
def lexLt : List Char → List Char → Bool
  | [], [] => false
  | [], _ :: _ => true
  | _ :: _, [] => false
  | a :: as, b :: bs => if a < b then true else if b < a then false else lexLt as bs

/-- Alphabetical non-strict order on strings. -/
def strLe (a b : String) : Bool := !(lexLt b.data a.data)

/-- Container-side file names of the init-script mounts for a script list, in
caller order. -/
def initMountNames (scripts : List String) : List String :=
  (List.range scripts.length).map initMountName

/-- Engine-side alphabetical ordering of a list of file names (a stable
sort, as the docker entrypoint executes scripts in sorted-name order). -/
def alphabetical (l : List String) : List String :=
  List.insertionSort (fun a b => strLe a b = true) l

/-! Concrete oracle fixtures used by the witness theorems. -/

/-- Engine where every operation succeeds and no container exists yet. -/
def engAllOk : Engine where
  dockerInstalled := true
  psOutput := fun _ => some ""
  listenOk := fun _ => true
  imagesOut := fun _ => "deadbeef"
  pullOk := true
  runOk := true
  probeOk := fun _ => true
  stopOk := true

/-- Engine whose `docker ps` invocation fails, everything else succeeding. -/
def engPsFails : Engine where
  dockerInstalled := true
  psOutput := fun _ => none
  listenOk := fun _ => true
  imagesOut := fun _ => "deadbeef"
  pullOk := true
  runOk := true
  probeOk := fun _ => true
  stopOk := true

/-- Engine reporting a running container named anything, stop succeeding. -/
def engRunning : Engine where
  dockerInstalled := true
  psOutput := fun _ => some "Up 5 minutes"
  listenOk := fun _ => true
  imagesOut := fun _ => "deadbeef"
  pullOk := true
  runOk := true
  probeOk := fun _ => true
  stopOk := true

/-- Plain configuration on a non-default port. -/
def cfgPlain : Config :=
  { defaultConfig "20240101-000000" "pw" "mydb" with Port := "6000" }

/-- Configuration with an empty container name. -/
def cfgEmptyName : Config :=
  { defaultConfig "20240101-000000" "pw" "mydb" with ContainerName := "" }

/-! Helper lemmas. -/

theorem runSteps_res_ne_emptyName (eng : Engine) (cfg : Config) :
    (runSteps eng cfg).snd ≠ Except.error CreateErr.emptyName := by
  unfold runSteps
  rcases hw : (waitForPostgres eng cfg.ContainerName).snd with _ | e <;>
    by_cases hp : (pullStep eng cfg).snd = false <;>
    by_cases hr : eng.runOk = false <;>
    simp [hp, hr, hw]

theorem createWithConfig_res_ne_emptyName (eng : Engine) (cfg : Config)
    (h : cfg.ContainerName ≠ "") :
    (createWithConfig eng cfg).res ≠ Except.error CreateErr.emptyName := by
  unfold createWithConfig
  rw [if_neg h]
  split
  · simp
  · split
    · simp
    · split
      · split
        · simp
        · simpa using runSteps_res_ne_emptyName eng _
      · simpa using runSteps_res_ne_emptyName eng cfg

/-- C1: with an empty container name, `CreateWithConfig` returns the
validation error and performs no engine operation at all (empty trace). -/
theorem createWithConfig_emptyName_validation (eng : Engine) (cfg : Config)
    (h : cfg.ContainerName = "") :
    (createWithConfig eng cfg).res = Except.error CreateErr.emptyName ∧
    (createWithConfig eng cfg).trace = [] := by
  simp [createWithConfig, h]

/-- Witness for C1 at a concrete engine and configuration. -/
theorem createWithConfig_emptyName_validation_witness :
    (createWithConfig engAllOk cfgEmptyName).res = Except.error CreateErr.emptyName ∧
    (createWithConfig engAllOk cfgEmptyName).trace = [] :=
  createWithConfig_emptyName_validation engAllOk cfgEmptyName rfl

/-- C10: `DefaultConfig` substitutes the timestamped `postgres-` name when the
given name is empty, that name is never empty (so the default-config `Create`
entry point never hits the empty-name validation failure), and the default
database name always equals the resulting container name. -/
theorem create_default_never_emptyName (eng : Engine) (now pw : String) :
    (defaultConfig now pw "").ContainerName = "postgres-" ++ now ∧
    (defaultConfig now pw "").ContainerName ≠ "" ∧
    (∀ name, (defaultConfig now pw name).Database = (defaultConfig now pw name).ContainerName) ∧
    (create eng now pw "").res ≠ Except.error CreateErr.emptyName := by
  have hne : ("postgres-" ++ now : String) ≠ "" := by
    intro hc
    have hl := congrArg String.length hc
    rw [String.length_append] at hl
    have h9 : ("postgres-" : String).length = 9 := rfl
    have h0 : ("" : String).length = 0 := rfl
    omega
  exact ⟨rfl, hne, fun name => rfl,
    createWithConfig_res_ne_emptyName eng (defaultConfig now pw "") hne⟩

/-- Witness for C10 at a concrete engine and inputs. -/
theorem create_default_never_emptyName_witness :
    (defaultConfig "20240101-000000" "pw" "").ContainerName =
      "postgres-" ++ "20240101-000000" ∧
    (defaultConfig "20240101-000000" "pw" "").ContainerName ≠ "" ∧
    (∀ name, (defaultConfig "20240101-000000" "pw" name).Database =
      (defaultConfig "20240101-000000" "pw" name).ContainerName) ∧
    (create engAllOk "20240101-000000" "pw" "").res ≠ Except.error CreateErr.emptyName :=
  create_default_never_emptyName engAllOk "20240101-000000" "pw"

theorem waitForPostgresAux_length (eng : Engine) (name : String) :
    ∀ fuel attempt, (waitForPostgresAux eng name attempt fuel).fst.length ≤ fuel := by
  intro fuel
  induction fuel with
  | zero => intro attempt; simp [waitForPostgresAux]
  | succ n ih =>
    intro attempt
    by_cases h : eng.probeOk attempt
    · simp [waitForPostgresAux, h]
    · have := ih (attempt + 1)
      simp [waitForPostgresAux, h]
      omega

theorem waitForPostgresAux_ok (eng : Engine) (name : String) :
    ∀ fuel attempt,
      ((waitForPostgresAux eng name attempt fuel).snd = Except.ok () ↔
        ∃ j, j < fuel ∧ eng.probeOk (attempt + j) = true) := by
  intro fuel
  induction fuel with
  | zero => intro attempt; simp [waitForPostgresAux]
  | succ n ih =>
    intro attempt
    by_cases h : eng.probeOk attempt
    · simp [waitForPostgresAux, h]
      exact ⟨0, Nat.succ_pos n, by simpa using h⟩
    · simp [waitForPostgresAux, h]
      rw [ih (attempt + 1)]
      constructor
      · rintro ⟨j, hj, hp⟩
        refine ⟨j + 1, by omega, ?_⟩
        have harith : attempt + 1 + j = attempt + (j + 1) := by omega
        rwa [harith] at hp
      · rintro ⟨j, hj, hp⟩
        rcases j with _ | k
        · exact absurd (by simpa using hp) h
        · refine ⟨k, by omega, ?_⟩
          have harith : attempt + 1 + k = attempt + (k + 1) := by omega
          rwa [harith]

theorem waitForPostgresAux_firstLen (eng : Engine) (name : String) :
    ∀ fuel attempt k, k < fuel → eng.probeOk (attempt + k) = true →
      (∀ j, j < k → eng.probeOk (attempt + j) = false) →
      (waitForPostgresAux eng name attempt fuel).fst.length = k + 1 := by
  intro fuel
  induction fuel with
  | zero => intro attempt k hk; omega
  | succ n ih =>
    intro attempt k hk hp hmin
    rcases k with _ | m
    · have h0 : eng.probeOk attempt = true := by simpa using hp
      simp [waitForPostgresAux, h0]
    · have h0 : eng.probeOk attempt = false := by
        have := hmin 0 (Nat.succ_pos m)
        simpa using this
      have hrec := ih (attempt + 1) m (by omega)
        (by
          have harith : attempt + 1 + m = attempt + (m + 1) := by omega
          rwa [harith])
        (by
          intro j hj
          have harith : attempt + 1 + j = attempt + (j + 1) := by omega
          rw [harith]
          exact hmin (j + 1) (by omega))
      simp [waitForPostgresAux, h0]
      omega

theorem waitForPostgresAux_timeout (eng : Engine) (name : String) :
    ∀ fuel attempt, (∀ j, j < fuel → eng.probeOk (attempt + j) = false) →
      (waitForPostgresAux eng name attempt fuel).snd = Except.error WaitErr.readinessTimeout ∧
      (waitForPostgresAux eng name attempt fuel).fst.length = fuel := by
  intro fuel
  induction fuel with
  | zero => intro attempt _; simp [waitForPostgresAux]
  | succ n ih =>
    intro attempt hall
    have h0 : eng.probeOk attempt = false := by simpa using hall 0 (Nat.succ_pos n)
    have hrec := ih (attempt + 1)
      (by
        intro j hj
        have harith : attempt + 1 + j = attempt + (j + 1) := by omega
        rw [harith]
        exact hall (j + 1) (by omega))
    simp [waitForPostgresAux, h0]
    exact ⟨hrec.1, by omega⟩

/-- C4: readiness polling makes at most 10 probe attempts; it succeeds exactly
when some probe within the budget exits zero, stops right after the first
successful probe, and reports the timeout error with all 10 attempts used when
every probe fails. -/
theorem waitForPostgres_bounded (eng : Engine) (name : String) :
    (waitForPostgres eng name).fst.length ≤ 10 ∧
    ((waitForPostgres eng name).snd = Except.ok () ↔
      ∃ i, i < 10 ∧ eng.probeOk i = true) ∧
    (∀ k, k < 10 → eng.probeOk k = true → (∀ j, j < k → eng.probeOk j = false) →
      (waitForPostgres eng name).fst.length = k + 1) ∧
    ((∀ i, i < 10 → eng.probeOk i = false) →
      (waitForPostgres eng name).snd = Except.error WaitErr.readinessTimeout ∧
      (waitForPostgres eng name).fst.length = 10) := by
  refine ⟨waitForPostgresAux_length eng name 10 0, ?_, ?_, ?_⟩
  · have := waitForPostgresAux_ok eng name 10 0
    simpa [waitForPostgres] using this
  · intro k hk hp hmin
    have := waitForPostgresAux_firstLen eng name 10 0 k hk (by simpa using hp)
      (by intro j hj; simpa using hmin j hj)
    simpa [waitForPostgres] using this
  · intro hall
    have := waitForPostgresAux_timeout eng name 10 0 (by intro j hj; simpa using hall j hj)
    simpa [waitForPostgres] using this

/-- Witness for C4: on the all-success engine the first probe already
succeeds, so exactly one attempt is made. -/
theorem waitForPostgres_bounded_witness :
    (waitForPostgres engAllOk "mydb").fst.length = 0 + 1 :=
  (waitForPostgres_bounded engAllOk "mydb").2.2.1 0 (by omega) rfl
    (fun j hj => absurd hj (by omega))

/-- C9: `Stop` first queries existence and running state, failing `NotFound`
for an absent container and `AlreadyStopped` for an existing non-running one
(invoking no stop in either case); only for an existing running container does
it invoke the engine stop, exactly once, surfacing a nonzero exit as an
error. -/
theorem stop_spec (eng : Engine) (name : String) :
    ((containerExists eng name).fst = false →
      (stop eng name).snd = Except.error (StopErr.notFound name) ∧
      ((stop eng name).fst.any isStopCmd) = false) ∧
    ((containerExists eng name).fst = true → (containerExists eng name).snd = false →
      (stop eng name).snd = Except.error (StopErr.alreadyStopped name) ∧
      ((stop eng name).fst.any isStopCmd) = false) ∧
    ((containerExists eng name).fst = true → (containerExists eng name).snd = true →
      ((stop eng name).fst.filter isStopCmd) = [Event.stopCmd name] ∧
      (eng.stopOk = true → (stop eng name).snd = Except.ok ()) ∧
      (eng.stopOk = false → (stop eng name).snd = Except.error StopErr.stopFailed)) ∧
    (stop eng name).fst.head? = some (Event.existsQuery name) := by
  refine ⟨?_, ?_, ?_, ?_⟩
  · intro h1
    simp [stop, h1, isStopCmd]
  · intro h1 h2
    simp [stop, h1, h2, isStopCmd]
  · intro h1 h2
    by_cases hs : eng.stopOk
    · simp [stop, h1, h2, hs, isStopCmd, List.filter]
    · simp [stop, h1, h2, hs, isStopCmd, List.filter]
  · by_cases h1 : (containerExists eng name).fst <;>
      by_cases h2 : (containerExists eng name).snd <;>
      by_cases hs : eng.stopOk <;>
      simp [stop, h1, h2, hs]

/-- Witness for C9 on an engine reporting a running container: the stop
command is invoked exactly once and succeeds. -/
theorem stop_spec_witness :
    ((stop engRunning "mydb").fst.filter isStopCmd) = [Event.stopCmd "mydb"] ∧
    (stop engRunning "mydb").snd = Except.ok () :=
  ⟨((stop_spec engRunning "mydb").2.2.1 rfl rfl).1,
   ((stop_spec engRunning "mydb").2.2.1 rfl rfl).2.1 rfl⟩

/-- C7: create never modifies any configuration field other than the port:
the configuration after the call is the input with at most the port replaced,
and it is exactly the input whenever the configured port is not the
default. -/
theorem createWithConfig_frame (eng : Engine) (cfg : Config) :
    (∃ p, (createWithConfig eng cfg).cfg = { cfg with Port := p }) ∧
    (cfg.Port ≠ defaultPort → (createWithConfig eng cfg).cfg = cfg) := by
  constructor
  · by_cases h1 : cfg.ContainerName = ""
    · have hc : (createWithConfig eng cfg).cfg = cfg := by simp [createWithConfig, h1]
      exact ⟨cfg.Port, by rw [hc]⟩
    · by_cases h2 : eng.dockerInstalled = false
      · have hc : (createWithConfig eng cfg).cfg = cfg := by
          simp [createWithConfig, h1, h2]
        exact ⟨cfg.Port, by rw [hc]⟩
      · by_cases h3 : (containerExists eng cfg.ContainerName).fst = true
        · have hc : (createWithConfig eng cfg).cfg = cfg := by
            simp [createWithConfig, h1, h2, h3]
          exact ⟨cfg.Port, by rw [hc]⟩
        · by_cases h4 : cfg.Port = defaultPort
          · rcases hf : (findAvailablePort eng 5432).snd with _ | p
            · have hc : (createWithConfig eng cfg).cfg = cfg := by
                simp [createWithConfig, h1, h2, h3, h4, hf]
              exact ⟨cfg.Port, by rw [hc]⟩
            · have hc : (createWithConfig eng cfg).cfg = { cfg with Port := toString p } := by
                simp [createWithConfig, h1, h2, h3, h4, hf]
              exact ⟨toString p, hc⟩
          · have hc : (createWithConfig eng cfg).cfg = cfg := by
              simp [createWithConfig, h1, h2, h3, h4]
            exact ⟨cfg.Port, by rw [hc]⟩
  · intro h4
    by_cases h1 : cfg.ContainerName = ""
    · simp [createWithConfig, h1]
    · by_cases h2 : eng.dockerInstalled = false
      · simp [createWithConfig, h1, h2]
      · by_cases h3 : (containerExists eng cfg.ContainerName).fst = true
        · simp [createWithConfig, h1, h2, h3]
        · simp [createWithConfig, h1, h2, h3, h4]

/-- Witness for C7: on a non-default port the configuration is returned
untouched. -/
theorem createWithConfig_frame_witness :
    (createWithConfig engAllOk cfgPlain).cfg = cfgPlain :=
  (createWithConfig_frame engAllOk cfgPlain).2 (by decide)

theorem string_ne_of_length_ne {a b : String} (h : a.length ≠ b.length) : a ≠ b := by
  intro hc
  exact h (by rw [hc])

/-- C6: the run arguments carry the SSL block as one contiguous segment; the
certificate and key mounts are present in it exactly when the SSL mode is not
`"disable"` and both paths are non-empty, and the root-certificate mount
additionally requires a non-empty root-certificate path. -/
theorem buildDockerArgs_ssl (cfg : Config) :
    (∃ pre post, buildDockerArgs cfg = pre ++ sslMountArgs cfg ++ post) ∧
    (((cfg.SSLCert ++ ":/var/lib/postgresql/server.crt") ∈ sslMountArgs cfg ∧
      (cfg.SSLKey ++ ":/var/lib/postgresql/server.key") ∈ sslMountArgs cfg) ↔
      (cfg.SSLMode ≠ "disable" ∧ cfg.SSLCert ≠ "" ∧ cfg.SSLKey ≠ "")) ∧
    ((cfg.SSLRootCert ++ ":/var/lib/postgresql/root.crt") ∈ sslMountArgs cfg ↔
      (cfg.SSLMode ≠ "disable" ∧ cfg.SSLCert ≠ "" ∧ cfg.SSLKey ≠ "" ∧
       cfg.SSLRootCert ≠ "")) := by
  refine ⟨?_, ?_, ?_⟩
  · refine ⟨["run", "--name", cfg.ContainerName,
      "-e", "POSTGRES_PASSWORD=" ++ cfg.Password,
      "-e", "POSTGRES_USER=" ++ cfg.Username,
      "-e", "POSTGRES_DB=" ++ cfg.Database,
      "-e", "TZ=" ++ cfg.Timezone,
      "-e", "LANG=" ++ cfg.Locale,
      "-p", cfg.Port ++ ":5432",
      "-d"]
      ++ cfg.Environment.flatMap (fun kv => ["-e", kv.fst ++ "=" ++ kv.snd])
      ++ (if cfg.Volume ≠ "" then ["-v", cfg.Volume ++ ":/var/lib/postgresql/data"] else [])
      ++ (if cfg.Memory ≠ "" then ["--memory", cfg.Memory] else [])
      ++ (if cfg.CPU ≠ "" then ["--cpus", cfg.CPU] else [])
      ++ cfg.Networks.flatMap (fun n => ["--network", n])
      ++ cfg.ExtraMounts.flatMap (fun m => ["-v", m]),
      initMountArgs cfg.InitScripts ++ ["postgres:" ++ cfg.Version], ?_⟩
    simp only [buildDockerArgs, List.append_assoc]
  · by_cases hm : cfg.SSLMode = "disable"
    · simp [sslMountArgs, hm]
    · by_cases hc : cfg.SSLCert = ""
      · simp [sslMountArgs, hm, hc]
      · by_cases hk : cfg.SSLKey = ""
        · simp [sslMountArgs, hm, hc, hk]
        · by_cases hr : cfg.SSLRootCert = "" <;>
            simp [sslMountArgs, hm, hc, hk, hr]
  · by_cases hm : cfg.SSLMode = "disable"
    · simp [sslMountArgs, hm]
    · by_cases hc : cfg.SSLCert = ""
      · simp [sslMountArgs, hm, hc]
      · by_cases hk : cfg.SSLKey = ""
        · simp [sslMountArgs, hm, hc, hk]
        · by_cases hr : cfg.SSLRootCert = ""
          · have hlen2 : (":/var/lib/postgresql/root.crt" : String) ≠
                cfg.SSLCert ++ ":/var/lib/postgresql/server.crt" := by
              apply string_ne_of_length_ne
              rw [String.length_append]
              have e2 : (":/var/lib/postgresql/root.crt" : String).length = 29 := rfl
              have e3 : (":/var/lib/postgresql/server.crt" : String).length = 31 := rfl
              omega
            have hlen3 : (":/var/lib/postgresql/root.crt" : String) ≠
                cfg.SSLKey ++ ":/var/lib/postgresql/server.key" := by
              apply string_ne_of_length_ne
              rw [String.length_append]
              have e2 : (":/var/lib/postgresql/root.crt" : String).length = 29 := rfl
              have e3 : (":/var/lib/postgresql/server.key" : String).length = 31 := rfl
              omega
            simp [sslMountArgs, hm, hc, hk, hr, hlen2, hlen3]
          · simp [sslMountArgs, hm, hc, hk, hr]

/-- Witness for C6 at a configuration with SSL enabled and certificate, key
and root-certificate paths set. -/
theorem buildDockerArgs_ssl_witness :
    ("/c.pem" ++ ":/var/lib/postgresql/server.crt") ∈
      sslMountArgs { cfgPlain with
        SSLMode := "require", SSLCert := "/c.pem", SSLKey := "/k.pem" } ∧
    ("/k.pem" ++ ":/var/lib/postgresql/server.key") ∈
      sslMountArgs { cfgPlain with
        SSLMode := "require", SSLCert := "/c.pem", SSLKey := "/k.pem" } :=
  (buildDockerArgs_ssl { cfgPlain with
      SSLMode := "require", SSLCert := "/c.pem", SSLKey := "/k.pem" }).2.1.mpr
    ⟨by decide, by decide, by decide⟩

/-- C2: the run operation is only ever reached after the existence query at
the head of the trace reported no existing container; when the query reports
an existing container, create fails with `AlreadyExists` naming the container
and no run operation appears in the trace. -/
theorem createWithConfig_queryBeforeRun (eng : Engine) (cfg : Config)
    (h1 : cfg.ContainerName ≠ "") (h2 : eng.dockerInstalled = true) :
    (((createWithConfig eng cfg).trace.any isRunCmd) = true →
      (createWithConfig eng cfg).trace.head? = some (Event.existsQuery cfg.ContainerName) ∧
      (containerExists eng cfg.ContainerName).fst = false) ∧
    ((containerExists eng cfg.ContainerName).fst = true →
      (createWithConfig eng cfg).res = Except.error (CreateErr.alreadyExists cfg.ContainerName) ∧
      ((createWithConfig eng cfg).trace.any isRunCmd) = false) := by
  by_cases h3 : (containerExists eng cfg.ContainerName).fst = true
  · have ht : (createWithConfig eng cfg).trace = [Event.existsQuery cfg.ContainerName] := by
      simp [createWithConfig, h1, h2, h3]
    constructor
    · intro hrun
      rw [ht] at hrun
      simp [isRunCmd] at hrun
    · intro _
      refine ⟨by simp [createWithConfig, h1, h2, h3], ?_⟩
      rw [ht]
      simp [isRunCmd]
  · constructor
    · intro _
      refine ⟨?_, by simpa using h3⟩
      by_cases h4 : cfg.Port = defaultPort
      · rcases hf : (findAvailablePort eng 5432).snd with _ | p <;>
          simp [createWithConfig, h1, h2, h3, h4, hf]
      · simp [createWithConfig, h1, h2, h3, h4]
    · intro hc
      exact absurd hc h3

/-- Witness for C2 on an engine that reports an existing container. -/
theorem createWithConfig_queryBeforeRun_witness :
    (createWithConfig engRunning cfgPlain).res =
      Except.error (CreateErr.alreadyExists cfgPlain.ContainerName) ∧
    ((createWithConfig engRunning cfgPlain).trace.any isRunCmd) = false :=
  (createWithConfig_queryBeforeRun engRunning cfgPlain (by decide) rfl).2 rfl

theorem findAvailablePortAux_some (eng : Engine) :
    ∀ fuel start p, (findAvailablePortAux eng start fuel).snd = some p →
      start ≤ p ∧ p < start + fuel ∧ eng.listenOk p = true ∧
      ∀ q, start ≤ q → q < p → eng.listenOk q = false := by
  intro fuel
  induction fuel with
  | zero => intro start p h; simp [findAvailablePortAux] at h
  | succ n ih =>
    intro start p h
    by_cases hl : eng.listenOk start
    · simp [findAvailablePortAux, hl] at h
      subst h
      refine ⟨Nat.le_refl _, by omega, by simpa using hl, ?_⟩
      intro q hq1 hq2
      omega
    · have hl0 : eng.listenOk start = false := by simpa using hl
      simp [findAvailablePortAux, hl] at h
      obtain ⟨ha, hb, hc, hd⟩ := ih (start + 1) p h
      refine ⟨by omega, by omega, hc, ?_⟩
      intro q hq1 hq2
      rcases Nat.eq_or_lt_of_le hq1 with heq | hlt
      · rw [← heq]
        exact hl0
      · exact hd q (by omega) hq2

theorem findAvailablePortAux_none (eng : Engine) :
    ∀ fuel start, (findAvailablePortAux eng start fuel).snd = none →
      ∀ q, start ≤ q → q < start + fuel → eng.listenOk q = false := by
  intro fuel
  induction fuel with
  | zero => intro start h q hq1 hq2; omega
  | succ n ih =>
    intro start h q hq1 hq2
    by_cases hl : eng.listenOk start
    · simp [findAvailablePortAux, hl] at h
    · have hl0 : eng.listenOk start = false := by simpa using hl
      simp [findAvailablePortAux, hl] at h
      rcases Nat.eq_or_lt_of_le hq1 with heq | hlt
      · rw [← heq]
        exact hl0
      · exact ih (start + 1) h q (by omega) (by omega)

theorem findAvailablePortAux_probe_mem (eng : Engine) (start fuel : Nat) (h : 0 < fuel) :
    ((findAvailablePortAux eng start fuel).fst.any isBindProbe) = true := by
  rcases fuel with _ | n
  · omega
  · by_cases hl : eng.listenOk start <;> simp [findAvailablePortAux, hl, isBindProbe]

theorem waitForPostgresAux_no_bind (eng : Engine) (name : String) :
    ∀ fuel attempt, ((waitForPostgresAux eng name attempt fuel).fst.any isBindProbe) = false := by
  intro fuel
  induction fuel with
  | zero => intro attempt; simp [waitForPostgresAux]
  | succ n ih =>
    intro attempt
    by_cases h : eng.probeOk attempt <;>
      simp [waitForPostgresAux, h, isBindProbe, ih (attempt + 1)]

theorem pullStep_no_bind (eng : Engine) (cfg : Config) :
    ((pullStep eng cfg).fst.any isBindProbe) = false := by
  unfold pullStep
  by_cases hi : eng.imagesOut cfg.Version = "" <;> simp [hi, isBindProbe]

theorem runSteps_no_bind (eng : Engine) (cfg : Config) :
    ((runSteps eng cfg).fst.any isBindProbe) = false := by
  unfold runSteps
  have hps := pullStep_no_bind eng cfg
  have hwb : ((waitForPostgres eng cfg.ContainerName).fst.any isBindProbe) = false :=
    waitForPostgresAux_no_bind eng cfg.ContainerName 10 0
  rcases hw : (waitForPostgres eng cfg.ContainerName).snd with _ | e <;>
    by_cases hp : (pullStep eng cfg).snd = false <;>
    by_cases hr : eng.runOk = false <;>
    simp [hp, hr, hw, isBindProbe, hps, hwb]

/-- C3: a port probe runs during create exactly when the configured port is
the default 5432; the probe scans the 100-port window from 5432, the first
bindable port (never an occupied one) becomes the effective port, and an
exhausted window fails create with the no-available-port error. -/
theorem createWithConfig_portProbe (eng : Engine) (cfg : Config)
    (h1 : cfg.ContainerName ≠ "") (h2 : eng.dockerInstalled = true)
    (h3 : (containerExists eng cfg.ContainerName).fst = false) :
    (((createWithConfig eng cfg).trace.any isBindProbe) = true ↔ cfg.Port = defaultPort) ∧
    (cfg.Port = defaultPort →
      ((findAvailablePort eng 5432).snd = none →
        (createWithConfig eng cfg).res = Except.error CreateErr.noAvailablePort ∧
        (∀ q, 5432 ≤ q → q < 5532 → eng.listenOk q = false)) ∧
      (∀ p, (findAvailablePort eng 5432).snd = some p →
        (createWithConfig eng cfg).cfg.Port = toString p ∧
        5432 ≤ p ∧ p < 5532 ∧ eng.listenOk p = true ∧
        (∀ q, 5432 ≤ q → q < p → eng.listenOk q = false))) := by
  have hprobe : ((findAvailablePort eng 5432).fst.any isBindProbe) = true :=
    findAvailablePortAux_probe_mem eng 5432 100 (by omega)
  constructor
  · constructor
    · intro hb
      by_contra h4
      have ht : (createWithConfig eng cfg).trace =
          Event.existsQuery cfg.ContainerName :: (runSteps eng cfg).fst := by
        simp [createWithConfig, h1, h2, h3, h4]
      rw [ht] at hb
      simp [isBindProbe, runSteps_no_bind eng cfg] at hb
    · intro h4
      rcases hf : (findAvailablePort eng 5432).snd with _ | p
      · have ht : (createWithConfig eng cfg).trace =
            Event.existsQuery cfg.ContainerName :: (findAvailablePort eng 5432).fst := by
          simp [createWithConfig, h1, h2, h3, h4, hf]
        rw [ht]
        simp [isBindProbe, hprobe]
      · have ht : (createWithConfig eng cfg).trace =
            Event.existsQuery cfg.ContainerName ::
              ((findAvailablePort eng 5432).fst ++
                (runSteps eng { cfg with Port := toString p }).fst) := by
          simp [createWithConfig, h1, h2, h3, h4, hf]
        rw [ht]
        simp [isBindProbe, hprobe]
  · intro h4
    constructor
    · intro hf
      refine ⟨by simp [createWithConfig, h1, h2, h3, h4, hf], ?_⟩
      intro q hq1 hq2
      exact findAvailablePortAux_none eng 100 5432 hf q hq1 (by omega)
    · intro p hf
      have hsome := findAvailablePortAux_some eng 100 5432 p hf
      refine ⟨by simp [createWithConfig, h1, h2, h3, h4, hf], hsome.1, ?_,
        hsome.2.2.1, hsome.2.2.2⟩
      have := hsome.2.1
      omega

/-- Witness for C3: with every port free and the default port configured, the
probe selects 5432 itself as the effective port. -/
theorem createWithConfig_portProbe_witness :
    (createWithConfig engAllOk (defaultConfig "20240101-000000" "pw" "mydb")).cfg.Port =
      toString 5432 :=
  (((createWithConfig_portProbe engAllOk (defaultConfig "20240101-000000" "pw" "mydb")
      (by decide) rfl rfl).2 rfl).2 5432 rfl).1

/-- C5 counterexample: with 11 init scripts the mounted file names are
`init_0.sql … init_10.sql`, and their engine-side alphabetical ordering puts
`init_10.sql` before `init_2.sql`, so it no longer equals the caller-supplied
list order — the claim fails for lists of arbitrary length. -/
theorem initScripts_order_counterexample :
    alphabetical (initMountNames (List.replicate 11 "a.sql")) ≠
      initMountNames (List.replicate 11 "a.sql") := by decide

theorem initMountNames_alphabetical_small (n : Nat) (h : n ≤ 10) :
    alphabetical ((List.range n).map initMountName) = (List.range n).map initMountName := by
  interval_cases n <;> decide

/-- C5 (amended): the run arguments carry one read-only mount per init
script, the script at list position `i` being mounted at the target path with
index `i`, and for lists of at most 10 scripts the engine-side alphabetical
ordering of the mounted file names equals the caller-supplied list order. -/
theorem buildDockerArgs_initScripts (cfg : Config)
    (_hne : cfg.InitScripts ≠ []) (hlen : cfg.InitScripts.length ≤ 10) :
    (∃ pre, buildDockerArgs cfg =
      pre ++ initMountArgs cfg.InitScripts ++ ["postgres:" ++ cfg.Version]) ∧
    (∀ i, ∀ hi : i < cfg.InitScripts.length,
      initMountArg (cfg.InitScripts.get ⟨i, hi⟩) i ∈ initMountArgs cfg.InitScripts) ∧
    alphabetical (initMountNames cfg.InitScripts) = initMountNames cfg.InitScripts := by
  refine ⟨?_, ?_, initMountNames_alphabetical_small cfg.InitScripts.length hlen⟩
  · refine ⟨["run", "--name", cfg.ContainerName,
      "-e", "POSTGRES_PASSWORD=" ++ cfg.Password,
      "-e", "POSTGRES_USER=" ++ cfg.Username,
      "-e", "POSTGRES_DB=" ++ cfg.Database,
      "-e", "TZ=" ++ cfg.Timezone,
      "-e", "LANG=" ++ cfg.Locale,
      "-p", cfg.Port ++ ":5432",
      "-d"]
      ++ cfg.Environment.flatMap (fun kv => ["-e", kv.fst ++ "=" ++ kv.snd])
      ++ (if cfg.Volume ≠ "" then ["-v", cfg.Volume ++ ":/var/lib/postgresql/data"] else [])
      ++ (if cfg.Memory ≠ "" then ["--memory", cfg.Memory] else [])
      ++ (if cfg.CPU ≠ "" then ["--cpus", cfg.CPU] else [])
      ++ cfg.Networks.flatMap (fun n => ["--network", n])
      ++ cfg.ExtraMounts.flatMap (fun m => ["-v", m])
      ++ sslMountArgs cfg, ?_⟩
    simp only [buildDockerArgs, List.append_assoc]
  · intro i hi
    have hmem : (i, cfg.InitScripts.get ⟨i, hi⟩) ∈ cfg.InitScripts.enum := by
      rw [List.mem_enum_iff_getElem?]
      simp [List.getElem?_eq_getElem hi]
    unfold initMountArgs
    rw [List.mem_flatMap]
    exact ⟨(i, cfg.InitScripts.get ⟨i, hi⟩), hmem, by simp⟩

/-- Witness for C5 (amended) on a two-script configuration: script 0 is
mounted at index 0 and script 1 at index 1. -/
theorem buildDockerArgs_initScripts_witness :
    initMountArg ((["a.sql", "b.sql"] : List String).get ⟨0, by decide⟩) 0 ∈
      initMountArgs ({ cfgPlain with InitScripts := ["a.sql", "b.sql"] }).InitScripts ∧
    initMountArg ((["a.sql", "b.sql"] : List String).get ⟨1, by decide⟩) 1 ∈
      initMountArgs ({ cfgPlain with InitScripts := ["a.sql", "b.sql"] }).InitScripts :=
  ⟨(buildDockerArgs_initScripts { cfgPlain with InitScripts := ["a.sql", "b.sql"] }
      (by decide) (by decide)).2.1 0 (by decide),
   (buildDockerArgs_initScripts { cfgPlain with InitScripts := ["a.sql", "b.sql"] }
      (by decide) (by decide)).2.1 1 (by decide)⟩

/-- C8 counterexample: on an engine whose existence/status query fails, create
succeeds anyway — the query failure is silently treated as the container being
absent instead of being surfaced to the caller. -/
theorem createWithConfig_swallows_psError :
    engPsFails.psOutput cfgPlain.ContainerName = none ∧
    (createWithConfig engPsFails cfgPlain).res = Except.ok () := by
  constructor
  · rfl
  · rfl

set_option maxRecDepth 4000 in
/-- C8 (amended): a failing existence/status query is the second silently
swallowed failure besides best-effort IP discovery: create behaves exactly as
if the query had reported no container; failures of the engine steps
themselves (pull, run, readiness) are still surfaced as step errors. -/
theorem containerExists_error_swallowed (eng : Engine) (cfg : Config)
    (h : eng.psOutput cfg.ContainerName = none) :
    containerExists eng cfg.ContainerName = (false, false) ∧
    createWithConfig eng cfg =
      createWithConfig { eng with psOutput := fun _ => some "" } cfg ∧
    (eng.runOk = false →
      ∃ s, (runSteps eng cfg).snd = Except.error (CreateErr.stepFailed s)) := by
  refine ⟨by simp [containerExists, h], ?_, ?_⟩
  · have hce : containerExists eng cfg.ContainerName = (false, false) := by
      simp [containerExists, h]
    have hce2 : containerExists { eng with psOutput := fun _ => some "" }
        cfg.ContainerName = (false, false) := by
      simp [containerExists, trimSpace]
    unfold createWithConfig
    rw [hce, hce2]
    rfl
  · intro hr
    unfold runSteps
    by_cases hp : (pullStep eng cfg).snd = false
    · exact ⟨"Pulling PostgreSQL image", by simp [hp]⟩
    · exact ⟨"Creating container", by simp [hp, hr]⟩

/-- Witness for C8 (amended): with a failing query, create on the concrete
engine equals create on the same engine with an empty (container absent)
query result. -/
theorem containerExists_error_swallowed_witness :
    createWithConfig engPsFails cfgPlain =
      createWithConfig { engPsFails with psOutput := fun _ => some "" } cfgPlain :=
  (containerExists_error_swallowed engPsFails cfgPlain rfl).2.1

end GoDB
